import Mathlib

/-!
Verification of the flood ingestion/caching pipeline of this repository:
the fetcher, source cache, deriver and persistence helpers in
`src/server/api.ts` (lines 9–336), the `/api/floods` request handler, and
the MySQL schema in `src/server/database.ts` (`floods` has
`severity VARCHAR(50)` and `id VARCHAR(255) PRIMARY KEY`; `cache_metadata`
is keyed by `cache_key` with a `last_updated` timestamp).

Conventions of the shallow embedding:
* Timestamps and coordinates are integers (`Int`, milliseconds).
* A possibly-missing JS field is an `Option`; JS truthiness of a numeric
  field (`x && …`, `x || 0`) is: `none` and `some 0` are falsy.
* `Math.random() * rangeMs` is an explicit offset oracle `rand : Nat → Int`,
  one draw per produced record.
* MySQL's comparison of the stored all-lowercase ASCII severity strings
  (`ORDER BY severity DESC`) is lexicographic; it is modelled by
  `List.Lex (· < ·)` on the character lists of the strings.
* The database is a value: the `floods` table is a list of rows in table
  order, `cache_metadata` an association list `cache_key ↦ last_updated`.
-/

/-- JS truthiness of a possibly-missing numeric field: `undefined`/`null`
and `0` are falsy, any other number is truthy. -/
def jsTruthy : Option Int → Bool
  | none => false
  | some n => n != 0

/-- JS `a || b` for a possibly-missing string `a` (the empty string is the
only falsy string). -/
def jsOrString (a : Option String) (b : String) : String :=
  match a with
  | none => b
  | some s => if s = "" then b else s

/-- Raw upstream reference point as used by `fetchAndStoreFloods`
(api.ts lines 196–250): `id`, geometry, the `is_flooding` flag, the two
risk metrics and the site name.  Fields the code reads with `||`/`&&`
guards are `Option`s. -/
structure RefPoint where
  id : String
  longitude : Option Int
  latitude : Option Int
  is_flooding : Bool
  gage_height : Option Int
  rp_elevation : Option Int
  site_name : Option String
deriving Repr, DecidableEq

/-- A row of the `floods` table (database.ts lines 146–161). -/
structure Flood where
  id : String
  timestamp : Int
  longitude : Int
  latitude : Int
  severity : String
  area_affected : String
  source : String
  time_range : String
deriving Repr, DecidableEq

/-- The projection returned by `getFloods`' SELECT (api.ts line 318):
every `floods` column except `time_range` and `created_at`. -/
structure FloodOut where
  id : String
  timestamp : Int
  longitude : Int
  latitude : Int
  severity : String
  area_affected : String
  source : String
deriving Repr, DecidableEq

def projectFloodRow (f : Flood) : FloodOut :=
  ⟨f.id, f.timestamp, f.longitude, f.latitude, f.severity, f.area_affected, f.source⟩

/-- MySQL comparison of two of the stored `VARCHAR` values.  All severity
strings the pipeline stores are lowercase ASCII, for which the default
collation is plain lexicographic comparison of the character sequences. -/
def mysqlLt (a b : String) : Prop := List.Lex (· < ·) a.data b.data

instance : DecidableRel mysqlLt := fun _ _ => List.Lex.decidableRel _ _ _

/-- `ORDER BY severity DESC` places row `a` before row `b` exactly when
`b.severity ≤ a.severity` in MySQL's string order, i.e. when
`¬ mysqlLt a.severity b.severity`. -/
def severityDescRow (a b : FloodOut) : Prop := ¬ mysqlLt a.severity b.severity

instance : DecidableRel severityDescRow := fun _ _ => instDecidableNot

instance : IsTotal FloodOut severityDescRow := by
  constructor
  intro a b
  by_cases h : mysqlLt a.severity b.severity
  · right
    intro h2
    exact (IsAsymm.asymm (r := List.Lex ((· < ·) : Char → Char → Prop)) _ _ h) h2
  · left
    exact h

instance : IsTrans FloodOut severityDescRow := by
  constructor
  intro a b c hab hbc hac
  simp only [severityDescRow, mysqlLt] at hab hbc hac
  rcases trichotomous_of (List.Lex ((· < ·) : Char → Char → Prop))
      a.severity.data b.severity.data with h | h | h
  · exact hab h
  · exact hbc (h ▸ hac)
  · exact hbc (IsTrans.trans _ _ _ h hac)

/-- The record constructor inside `fetchAndStoreFloods`' final `map`
(api.ts lines 236–250).  `point.longitude || 0` coincides with
`Option.getD 0` because the only falsy number is `0` itself;
`offset` stands for the draw `Math.random() * rangeMs`. -/
def floodRecordOfPoint (timeRange : String) (now : Int) (offset : Int)
    (point : RefPoint) : Flood :=
  { id := "flood_" ++ point.id ++ "_" ++ timeRange
    timestamp := now - offset
    longitude := point.longitude.getD 0
    latitude := point.latitude.getD 0
    severity := if point.is_flooding then "major" else "minor"
    area_affected := jsOrString point.site_name "Unknown Area"
    source := "USGS Real-Time Flood Impacts"
    time_range := timeRange }

/-- The backfill filter of api.ts lines 207–210:
`!point.is_flooding && point.gage_height && point.rp_elevation`. -/
def backfillEligible (point : RefPoint) : Bool :=
  !point.is_flooding && jsTruthy point.gage_height && jsTruthy point.rp_elevation

/-- The selection stage of `fetchAndStoreFloods` (api.ts lines 196–221):
filter the currently-flooding points; when fewer than 10 are flooding,
backfill with at-risk points (`slice(0, Math.min(50, 50 - …))`, each then
marked `is_flooding: false`); cap at 50 (`slice(0, maxResults)`). -/
def selectFloodingPoints (allReferencePoints : List RefPoint) : List RefPoint :=
  let floodingPoints := allReferencePoints.filter (fun point => point.is_flooding)
  let floodingPoints2 :=
    if floodingPoints.length < 10 then
      floodingPoints ++
        (((allReferencePoints.filter backfillEligible).take
            (min 50 (50 - floodingPoints.length))).map
          (fun point => { point with is_flooding := false }))
    else floodingPoints
  floodingPoints2.take 50

/-- The derivation stage of `fetchAndStoreFloods` (api.ts lines 196–250):
select the points, then map each to a flood record with a synthesized
timestamp. -/
def deriveFloods (allReferencePoints : List RefPoint) (timeRange : String)
    (now : Int) (rand : Nat → Int) : List Flood :=
  (selectFloodingPoints allReferencePoints).enum.map
    (fun ip => floodRecordOfPoint timeRange now (rand ip.1) ip.2)

/-- Error surfaced by a failing `replacePartition` transaction: the bulk
INSERT violates the `floods.id` PRIMARY KEY, the transaction is rolled
back and the error is rethrown (api.ts lines 308–310). -/
inductive DBError
  | duplicateKey
deriving Repr, DecidableEq

/-- Database state: the `floods` table in table order and the
`cache_metadata` table as `cache_key ↦ last_updated` (milliseconds). -/
structure DBState where
  floods : List Flood
  cache_metadata : List (String × Int)
deriving Repr, DecidableEq

/-- `INSERT … ON DUPLICATE KEY UPDATE last_updated = CURRENT_TIMESTAMP`
on `cache_metadata` (api.ts lines 293–296). -/
def upsertCacheMetadata (cache_key : String) (now : Int) :
    List (String × Int) → List (String × Int)
  | [] => [(cache_key, now)]
  | kv :: rest =>
    if kv.1 = cache_key then (cache_key, now) :: rest
    else kv :: upsertCacheMetadata cache_key now rest

/-- `storeFloods` (api.ts lines 260–314): transactionally delete the
partition's rows, bulk-insert the new rows (the INSERT writes the
`timeRange` argument into the `time_range` column), then upsert the
metadata row when `floods.length > 0` and delete it otherwise.  A
PRIMARY-KEY conflict on `floods.id` rolls the transaction back and
surfaces as an error, leaving the state unchanged. -/
def storeFloods (floods : List Flood) (timeRange : String) (now : Int)
    (db : DBState) : Except DBError DBState :=
  let kept := db.floods.filter (fun f => f.time_range != timeRange)
  if floods.length > 0 then
    let inserted := floods.map (fun f => { f with time_range := timeRange })
    if ((kept ++ inserted).map Flood.id).Nodup then
      Except.ok
        { floods := kept ++ inserted
          cache_metadata := upsertCacheMetadata timeRange now db.cache_metadata }
    else Except.error DBError.duplicateKey
  else
    Except.ok
      { floods := kept
        cache_metadata := db.cache_metadata.filter (fun kv => kv.1 != timeRange) }

/-- `getFloods` (api.ts lines 316–323): `SELECT id, timestamp, longitude,
latitude, severity, area_affected, source FROM floods WHERE time_range = ?
ORDER BY severity DESC`.  MySQL leaves the relative order of equal
severities unspecified; the stable `insertionSort` is one compliant
linearization (the theorems below rely only on sortedness and on the
result being a permutation of the matching rows). -/
def getFloods (timeRange : String) (db : DBState) : List FloodOut :=
  List.insertionSort severityDescRow
    ((db.floods.filter (fun f => f.time_range == timeRange)).map projectFloodRow)

/-- `isCacheValid` (api.ts lines 326–336): a `cache_metadata` row for the
key with `last_updated > NOW() - INTERVAL 5 MINUTE` exists. -/
def isCacheValid (timeRange : String) (now : Int) (db : DBState) : Bool :=
  db.cache_metadata.any (fun kv => kv.1 == timeRange && decide (now - 300000 < kv.2))

/-- `fetchAndStoreFloods` (api.ts lines 189–258) after the snapshot has
been obtained from the source cache: derive the partition's records from
the snapshot and store them. -/
def fetchAndStoreFloods (snapshot : List RefPoint) (timeRange : String)
    (now : Int) (rand : Nat → Int) (db : DBState) : Except DBError DBState :=
  storeFloods (deriveFloods snapshot timeRange now rand) timeRange now db

/-- The `/api/floods` handler body: check `isCacheValid`; when invalid run
`fetchAndStoreFloods` (the upstream-touching refresh), then read.  The
returned `Bool` records whether a refresh was performed. -/
def floodsHandlerRefresh (snapshot : List RefPoint) (timeRange : String)
    (now : Int) (rand : Nat → Int) (db : DBState) :
    Bool × Except DBError DBState :=
  if isCacheValid timeRange now db then (false, Except.ok db)
  else (true, fetchAndStoreFloods snapshot timeRange now rand db)

/-- Failure of a snapshot refresh (`fetchAllReferencePointsFromAPI`
throwing, e.g. out of axios). -/
inductive FetchFailure
  | httpFailure
deriving Repr, DecidableEq

/-- The module-level source-cache state of api.ts lines 10–11:
`allReferencePointsCache` (null at process start) and
`referencePointsCacheTime` (0 at process start). -/
structure SourceCacheState where
  allReferencePointsCache : Option (List RefPoint)
  referencePointsCacheTime : Int
deriving Repr, DecidableEq

def REFERENCE_POINTS_CACHE_TTL : Int := 24 * 60 * 60 * 1000

/-- The validity check of `getCachedReferencePoints` (api.ts lines
170–173): `allReferencePointsCache && now - referencePointsCacheTime <
REFERENCE_POINTS_CACHE_TTL`.  A non-null array is always truthy in JS
(even when empty), hence `Option.isSome`. -/
def referenceCacheHit (st : SourceCacheState) (now : Int) : Bool :=
  st.allReferencePointsCache.isSome &&
    decide (now - st.referencePointsCacheTime < REFERENCE_POINTS_CACHE_TTL)

/-- `getCachedReferencePoints` (api.ts lines 166–186).  The outcome of the
awaited `fetchAllReferencePointsFromAPI()` call is passed in as
`fetchResult`; a thrown fetch propagates (there is no try/catch here), a
successful fetch unconditionally replaces the snapshot and its time. -/
def getCachedReferencePoints (st : SourceCacheState) (now : Int)
    (fetchResult : Except FetchFailure (List RefPoint)) :
    Except FetchFailure (List RefPoint × SourceCacheState) :=
  if referenceCacheHit st now then
    Except.ok (st.allReferencePointsCache.getD [], st)
  else
    match fetchResult with
    | Except.ok allPoints => Except.ok (allPoints, ⟨some allPoints, now⟩)
    | Except.error e => Except.error e

/-- Outcome of two `getCachedReferencePoints()` calls entered while both
are pending. -/
structure ConcurrentGetOutcome where
  fetcherRuns : Nat
  result1 : List RefPoint
  result2 : List RefPoint
  finalState : SourceCacheState
deriving Repr, DecidableEq

/-- Two concurrent `getCachedReferencePoints()` calls under the JS
event-loop semantics of api.ts lines 166–186.  Each caller runs
synchronously up to `await fetchAllReferencePointsFromAPI()`.  When the
check at lines 170–173 fails, the function records no in-flight promise in
the module state before awaiting, so the second caller's check still sees
the stale state and it launches a second fetcher run; each caller then
assigns the module variables when its own fetch resolves (the later
assignment, modelled as the second, wins).  When the check succeeds
neither caller fetches. -/
def twoConcurrentGets (st : SourceCacheState) (now : Int)
    (fetch1 fetch2 : List RefPoint) : ConcurrentGetOutcome :=
  if referenceCacheHit st now then
    ⟨0, st.allReferencePointsCache.getD [], st.allReferencePointsCache.getD [], st⟩
  else
    ⟨2, fetch1, fetch2, ⟨some fetch2, now⟩⟩

/-- One upstream HTTP outcome for `fetchAllReferencePointsFromAPI`: either
a JSON-array payload (an empty array — or any non-array body, which the
code treats identically at lines 87–98 — signals pagination exhaustion),
or a thrown request error. -/
inductive PageResponse
  | payload (points : List RefPoint)
  | failure (status : Option Nat)
deriving Repr

/-- Loop state of `fetchAllReferencePointsFromAPI` (api.ts lines 55–163):
accumulated points, the pagination offset, the number of HTTP requests
issued so far (each request consumes the next response of the upstream
oracle), and the consecutive-error counter. -/
structure FetchLoopState where
  allPoints : List RefPoint
  skip : Nat
  requests : Nat
  consecutiveErrors : Nat
deriving Repr, DecidableEq

/-- The inner retry loop (api.ts lines 67–143): up to `maxRetries = 5`
attempts for the current page.  On a non-empty payload the points are
appended and `skip` advances by the fixed `limit = 10`; on an empty (or
non-array) payload nothing changes except the error counter resetting; on
a thrown request the error counters advance and the loop retries.  The
returned flag is the loop's `success` variable.  Backoff delays only
suspend and are not modelled. -/
def fetchRetryLoop (upstream : Nat → PageResponse) :
    FetchLoopState → Nat → FetchLoopState × Bool
  | st, 0 => (st, false)
  | st, n + 1 =>
    match upstream st.requests with
    | PageResponse.payload points =>
      if points.isEmpty then
        ({ st with requests := st.requests + 1, consecutiveErrors := 0 }, true)
      else
        ({ st with
            allPoints := st.allPoints ++ points
            skip := st.skip + 10
            requests := st.requests + 1
            consecutiveErrors := 0 }, true)
    | PageResponse.failure _ =>
      fetchRetryLoop upstream
        { st with
            requests := st.requests + 1
            consecutiveErrors := st.consecutiveErrors + 1 } n

/-- The outer `while (true)` loop of `fetchAllReferencePointsFromAPI`
(api.ts lines 63–157): run the retry loop for the current page, then stop
with the accumulated points when `consecutiveErrors >= 10` or when the
page never succeeded.  The loop has no other exit, so it is run on fuel:
`none` means the loop was still running after `fuel` iterations. -/
def fetchPaginationLoop (upstream : Nat → PageResponse) :
    FetchLoopState → Nat → Option (List RefPoint)
  | _, 0 => none
  | st, fuel + 1 =>
    let r := fetchRetryLoop upstream st 5
    if r.1.consecutiveErrors ≥ 10 then some r.1.allPoints
    else if !r.2 then some r.1.allPoints
    else fetchPaginationLoop upstream r.1 fuel

/-- `fetchAllReferencePointsFromAPI` (api.ts lines 55–163) started from
the initial loop state, observed for `fuel` outer iterations. -/
def fetchAllReferencePointsFromAPI (upstream : Nat → PageResponse)
    (fuel : Nat) : Option (List RefPoint) :=
  fetchPaginationLoop upstream ⟨[], 0, 0, 0⟩ fuel

/-- An exhausted upstream: every request returns an empty JSON array —
the response the code itself logs as "No more data …, stopping
pagination". -/
def exhaustedUpstream : Nat → PageResponse := fun _ => PageResponse.payload []

instance {ε α : Type} [DecidableEq ε] [DecidableEq α] : DecidableEq (Except ε α) :=
  fun a b =>
    match a, b with
    | Except.ok x, Except.ok y => decidable_of_iff (x = y) (by simp)
    | Except.error e, Except.error f => decidable_of_iff (e = f) (by simp)
    | Except.ok _, Except.error _ => isFalse (by simp)
    | Except.error _, Except.ok _ => isFalse (by simp)

/-- The severity ranking the specification's §4.4 ordering clause
describes: major > moderate > minor > unknown. -/
def specSevRank : String → Nat
  | "major" => 3
  | "moderate" => 2
  | "minor" => 1
  | _ => 0

/-- The ordering claim C1 asserts of `read(p)`: severity descending in the
spec's ranking, ties broken by id. -/
def claimC1Ordered (l : List FloodOut) : Prop :=
  l.Pairwise (fun a b =>
    specSevRank b.severity < specSevRank a.severity ∨
      (a.severity = b.severity ∧ ¬ mysqlLt b.id a.id))

instance (l : List FloodOut) : Decidable (claimC1Ordered l) := by
  unfold claimC1Ordered
  infer_instance

/-- The ordering claim C6 asserts of the round-trip read: severity
descending in the spec's ranking. -/
def claimC6Ordered (l : List FloodOut) : Prop :=
  l.Pairwise (fun a b => specSevRank b.severity ≤ specSevRank a.severity)

instance (l : List FloodOut) : Decidable (claimC6Ordered l) := by
  unfold claimC6Ordered
  infer_instance

/-- A point with required geometry missing (no longitude/latitude) that is
actively flooding. -/
def malformedActivePoint : RefPoint :=
  ⟨"1", none, none, true, none, none, none⟩

/-- The zero offset oracle (a run in which every `Math.random()` draw is
0). -/
def zeroRand : Nat → Int := fun _ => 0

/-- Geometry removal: forget a raw point's longitude/latitude. -/
def stripGeometry (p : RefPoint) : RefPoint :=
  { p with longitude := none, latitude := none }

/-- Zero out a derived record's coordinates. -/
def zeroGeometry (f : Flood) : Flood :=
  { f with longitude := 0, latitude := 0 }

/-- A stored partition with one major and one minor row (table order:
major first). -/
def c1db : DBState :=
  ⟨[⟨"a", 1, 0, 0, "major", "x", "s", "hour"⟩,
    ⟨"b", 2, 0, 0, "minor", "y", "s", "hour"⟩], [("hour", 0)]⟩

/-- A previously cached snapshot for the source-cache counterexample. -/
def c3point : RefPoint := ⟨"c3", some 1, some 1, true, none, none, none⟩

/-- A fetched snapshot for the single-flight counterexample. -/
def c4point : RefPoint := ⟨"c4", some 2, some 2, true, none, none, none⟩

/-- A major record handed to `storeFloods` in the round-trip
counterexample. -/
def c6recMajor : Flood :=
  ⟨"m1", 5, 1, 2, "major", "siteA", "USGS Real-Time Flood Impacts", "day"⟩

/-- A minor record handed to `storeFloods` in the round-trip
counterexample. -/
def c6recMinor : Flood :=
  ⟨"m2", 6, 3, 4, "minor", "siteB", "USGS Real-Time Flood Impacts", "day"⟩

/-- The state `storeFloods [c6recMajor, c6recMinor] "day" 100` produces
from the empty database. -/
def c6db : DBState := ⟨[c6recMajor, c6recMinor], [("day", 100)]⟩

/-- A record used to witness the round-trip property. -/
def c6wRec : Flood := ⟨"w1", 7, 1, 1, "major", "siteW", "src", "hour"⟩

/-- A currently-flooding point with full geometry. -/
def c7active : RefPoint := ⟨"a", some 1, some 2, true, none, none, some "siteA"⟩

/-- An inactive point with both risk metrics present (backfill
eligible). -/
def c7risk : RefPoint := ⟨"r", some 3, some 4, false, some 7, some 8, some "siteR"⟩

/-- The backfill/cap scenario input: 3 active points and 60 eligible
at-risk points. -/
def c7points : List RefPoint :=
  List.replicate 3 c7active ++ List.replicate 60 c7risk

/-- An active point used for the freshness-window witness. -/
def c9point : RefPoint := ⟨"c9", some 3, some 4, true, none, none, none⟩

/-- The database state after the first (non-empty) refresh of the
freshness-window witness. -/
def c9db1 : DBState :=
  ⟨[⟨"flood_c9_hour", 0, 3, 4, "major", "Unknown Area",
     "USGS Real-Time Flood Impacts", "hour"⟩], [("hour", 0)]⟩

/-- An active point whose derived record witnesses the severity
invariant. -/
def c10point : RefPoint := ⟨"w", some 5, some 6, true, none, none, some "site"⟩

/-! ## Helper lemmas -/

/-- Filtering after a map is mapping after filtering with the composed
predicate. -/
theorem filter_map_comm {α β : Type} (f : α → β) (p : β → Bool) :
    ∀ l : List α, (l.map f).filter p = (l.filter (fun a => p (f a))).map f := by
  intro l
  induction l with
  | nil => rfl
  | cons a as ih =>
    simp only [List.map_cons, List.filter_cons]
    by_cases h : p (f a) <;> simp [h, ih]

/-- Enumerating a mapped list enumerates the original list and maps the
second components. -/
theorem enumFrom_map_eq {α β : Type} (f : α → β) :
    ∀ (l : List α) (n : Nat),
      List.enumFrom n (l.map f) = (List.enumFrom n l).map (fun ip => (ip.1, f ip.2)) := by
  intro l
  induction l with
  | nil => intro n; rfl
  | cons a as ih => intro n; simp [List.enumFrom, ih]

/-- The length of an indexed map filtered by a property of the produced
element that only depends on the source element. -/
theorem length_filter_enumFrom_map {α β : Type} (g : Nat → α → β)
    (p : β → Bool) (q : α → Bool) (hpq : ∀ i a, p (g i a) = q a) :
    ∀ (l : List α) (n : Nat),
      (((List.enumFrom n l).map (fun ip => g ip.1 ip.2)).filter p).length =
        (l.filter q).length := by
  intro l
  induction l with
  | nil => intro n; rfl
  | cons a as ih =>
    intro n
    simp only [List.enumFrom, List.map_cons, List.filter_cons, hpq]
    by_cases h : q a <;> simp [h, ih]

/-- Rows kept by the partition-delete (`time_range != k`) never match the
partition read (`time_range == k`). -/
theorem filter_bne_beq_nil {α : Type} (g : α → String) (k : String) :
    ∀ l : List α,
      (l.filter (fun a => g a != k)).filter (fun a => g a == k) = [] := by
  intro l
  induction l with
  | nil => rfl
  | cons a as ih =>
    by_cases h : g a = k <;> simp [List.filter_cons, h, ih]

/-- After an upsert the metadata row for the key carries the upsert
time, hence any freshness bound below that time accepts it. -/
theorem upsert_any_fresh (k : String) (t bound : Int) (h : bound < t) :
    ∀ l : List (String × Int),
      (upsertCacheMetadata k t l).any
        (fun kv => kv.1 == k && decide (bound < kv.2)) = true := by
  intro l
  induction l with
  | nil => simp [upsertCacheMetadata, h]
  | cons kv rest ih =>
    by_cases hk : kv.1 = k <;> simp [upsertCacheMetadata, hk, h, ih]

/-! ## Claims -/

/-- C3 counterexample: with the snapshot TTL just expired
(`now = 86400000`, snapshot fetched at time 0) and the refresh fetch
failing, `getCachedReferencePoints` propagates the failure even though a
previous snapshot exists — it does not keep serving the stale
snapshot. -/
theorem sourceCache_drops_stale_snapshot_on_failure :
    getCachedReferencePoints ⟨some [c3point], 0⟩ 86400000
        (Except.error FetchFailure.httpFailure) =
      Except.error FetchFailure.httpFailure ∧
    getCachedReferencePoints ⟨some [c3point], 0⟩ 86400000
        (Except.error FetchFailure.httpFailure) ≠
      Except.ok ([c3point], ⟨some [c3point], 0⟩) := by decide

/-- C3 (amended): whenever the cache check fails (no snapshot, or the
TTL expired), a failing refresh fetch propagates to the caller — with or
without a previous snapshot. -/
theorem sourceCache_propagates_refresh_failure (st : SourceCacheState)
    (now : Int) (e : FetchFailure) (h : referenceCacheHit st now = false) :
    getCachedReferencePoints st now (Except.error e) = Except.error e := by
  simp [getCachedReferencePoints, h]

/-- C3 witness: the amended theorem applied to the empty initial cache. -/
theorem sourceCache_propagates_refresh_failure_witness :
    getCachedReferencePoints ⟨none, 0⟩ 0 (Except.error FetchFailure.httpFailure) =
      Except.error FetchFailure.httpFailure :=
  sourceCache_propagates_refresh_failure ⟨none, 0⟩ 0 FetchFailure.httpFailure (by decide)

/-- C4 counterexample: two `get()` calls entered concurrently on the
empty initial cache trigger two fetcher runs, and when the two fetches
resolve differently the callers receive different snapshots — there is
no single-flight. -/
theorem concurrent_gets_double_fetch :
    (twoConcurrentGets ⟨none, 0⟩ 0 [c4point] []).fetcherRuns = 2 ∧
    (twoConcurrentGets ⟨none, 0⟩ 0 [c4point] []).result1 ≠
      (twoConcurrentGets ⟨none, 0⟩ 0 [c4point] []).result2 := by decide

/-- C4 (amended): whenever the cache check fails, each of two concurrent
`get()` callers triggers its own fetcher run (two runs total) and each
returns its own fetch's snapshot. -/
theorem concurrent_gets_each_trigger_fetch (st : SourceCacheState) (now : Int)
    (fetch1 fetch2 : List RefPoint) (h : referenceCacheHit st now = false) :
    (twoConcurrentGets st now fetch1 fetch2).fetcherRuns = 2 ∧
    (twoConcurrentGets st now fetch1 fetch2).result1 = fetch1 ∧
    (twoConcurrentGets st now fetch1 fetch2).result2 = fetch2 := by
  simp [twoConcurrentGets, h]

/-- C4 witness: the amended theorem applied to the empty initial cache
with two distinct fetch results. -/
theorem concurrent_gets_each_trigger_fetch_witness :
    (twoConcurrentGets ⟨none, 0⟩ 0 [c4point] []).fetcherRuns = 2 ∧
    (twoConcurrentGets ⟨none, 0⟩ 0 [c4point] []).result1 = [c4point] ∧
    (twoConcurrentGets ⟨none, 0⟩ 0 [c4point] []).result2 = [] :=
  concurrent_gets_each_trigger_fetch ⟨none, 0⟩ 0 [c4point] [] (by decide)

/-- On an exhausted upstream every retry-loop round consumes one request,
resets the error counter and reports success without advancing `skip`, so
the outer loop never reaches a terminating state. -/
theorem fetchPaginationLoop_exhausted_none (fuel : Nat) :
    ∀ st : FetchLoopState, fetchPaginationLoop exhaustedUpstream st fuel = none := by
  induction fuel with
  | zero => intro st; rfl
  | succ n ih =>
    intro st
    have hr : fetchRetryLoop exhaustedUpstream st 5 =
        ({ st with requests := st.requests + 1, consecutiveErrors := 0 }, true) := rfl
    simp [fetchPaginationLoop, hr, ih]

/-- C5: on an upstream whose first page is already empty — the normal
pagination-exhaustion signal, which the code logs as "stopping
pagination" — `fetchAllReferencePointsFromAPI` never returns: the
empty-page `break` only exits the inner retry loop, and the outer
`while (true)` re-requests the same offset forever. -/
theorem fetchAll_loops_forever_on_exhausted_upstream (fuel : Nat) :
    fetchAllReferencePointsFromAPI exhaustedUpstream fuel = none :=
  fetchPaginationLoop_exhausted_none fuel _

/-- C10: every record produced by the derivation stage has severity
"major" or "minor" — severity is `point.is_flooding ? "major" : "minor"`,
so "moderate" and "unknown" are never produced. -/
theorem derive_severity_major_or_minor (pts : List RefPoint)
    (timeRange : String) (now : Int) (rand : Nat → Int) (f : Flood)
    (hf : f ∈ deriveFloods pts timeRange now rand) :
    f.severity = "major" ∨ f.severity = "minor" := by
  simp only [deriveFloods, List.mem_map] at hf
  obtain ⟨ip, _, rfl⟩ := hf
  by_cases hb : ip.2.is_flooding
  · left
    simp [floodRecordOfPoint, hb]
  · right
    simp [floodRecordOfPoint, hb]

/-- C10 witness: the invariant applied to the record derived from a
concrete active point. -/
theorem derive_severity_major_or_minor_witness :
    (floodRecordOfPoint "hour" 1000 0 c10point).severity = "major" ∨
      (floodRecordOfPoint "hour" 1000 0 c10point).severity = "minor" :=
  derive_severity_major_or_minor [c10point] "hour" 1000 zeroRand _ (by decide)

/-- Removing geometry from every input point commutes with the selection
stage: selection reads only `is_flooding` and the risk metrics. -/
theorem selectFloodingPoints_map_strip (pts : List RefPoint) :
    selectFloodingPoints (pts.map stripGeometry) =
      (selectFloodingPoints pts).map stripGeometry := by
  simp only [selectFloodingPoints]
  rw [show (pts.map stripGeometry).filter (fun point => point.is_flooding) =
        (pts.filter (fun point => point.is_flooding)).map stripGeometry from
      filter_map_comm _ _ pts,
    show (pts.map stripGeometry).filter backfillEligible =
        (pts.filter backfillEligible).map stripGeometry from
      filter_map_comm _ _ pts,
    List.length_map]
  by_cases hc : (pts.filter (fun point => point.is_flooding)).length < 10
  · rw [if_pos hc, if_pos hc]
    conv_lhs => rw [List.map_take, List.map_map]
    conv_rhs => rw [List.map_take, List.map_append, List.map_map, List.map_take]
    exact rfl
  · rw [if_neg hc, if_neg hc, List.map_take]

/-- C2 counterexample: a point that is actively flooding but has no
longitude/latitude is NOT dropped by the derivation — it yields a record
(with coordinates defaulted to 0), so the output is non-empty where the
claim requires it to be empty. -/
theorem derive_emits_record_for_malformed_point :
    deriveFloods [malformedActivePoint] "hour" 1000 zeroRand =
      [⟨"flood_1_hour", 1000, 0, 0, "major", "Unknown Area",
        "USGS Real-Time Flood Impacts", "hour"⟩] ∧
    (deriveFloods [malformedActivePoint] "hour" 1000 zeroRand).length ≠ 0 := by
  decide

/-- C2 (amended): the derivation never drops a point for missing
geometry.  Removing the geometry of every input point leaves the
selection, backfill and cap unchanged and only defaults the emitted
coordinates to 0 — the thresholds are evaluated on the full input set. -/
theorem derive_defaults_missing_geometry_never_drops (pts : List RefPoint)
    (timeRange : String) (now : Int) (rand : Nat → Int) :
    deriveFloods (pts.map stripGeometry) timeRange now rand =
      (deriveFloods pts timeRange now rand).map zeroGeometry := by
  unfold deriveFloods
  rw [selectFloodingPoints_map_strip,
    show ((selectFloodingPoints pts).map stripGeometry).enum =
        (selectFloodingPoints pts).enum.map (fun ip => (ip.1, stripGeometry ip.2)) from
      enumFrom_map_eq stripGeometry (selectFloodingPoints pts) 0,
    List.map_map, List.map_map]
  exact rfl

/-- C1 counterexample: with a stored major row and a stored minor row,
`getFloods` returns the minor row first — `ORDER BY severity DESC` on the
`VARCHAR` column sorts the strings lexicographically ("minor" > "major"),
not by the spec's major > moderate > minor > unknown ranking. -/
theorem getFloods_severity_order_counterexample :
    getFloods "hour" c1db =
      [⟨"b", 2, 0, 0, "minor", "y", "s"⟩, ⟨"a", 1, 0, 0, "major", "x", "s"⟩] ∧
    ¬ claimC1Ordered (getFloods "hour" c1db) := by decide

/-- C1 (amended): `getFloods` returns exactly the stored rows of the
partition (a permutation of them) ordered by descending lexicographic
string comparison of `severity` (so unknown ≥ moderate ≥ minor ≥ major);
the query has no secondary sort key, so ties carry no id order. -/
theorem getFloods_sorted_string_desc_perm (timeRange : String) (db : DBState) :
    (getFloods timeRange db).Sorted severityDescRow ∧
    (getFloods timeRange db).Perm
      ((db.floods.filter (fun f => f.time_range == timeRange)).map projectFloodRow) :=
  ⟨List.sorted_insertionSort _ _, List.perm_insertionSort _ _⟩

/-- Rows surviving the key-delete can never satisfy a freshness check for
that key. -/
theorem any_filter_bne_false (l : List (String × Int)) (k : String)
    (p : String × Int → Bool) :
    (l.filter (fun kv => kv.1 != k)).any (fun kv => kv.1 == k && p kv) = false := by
  induction l with
  | nil => rfl
  | cons kv rest ih => by_cases hk : kv.1 = k <;> simp [List.filter_cons, hk, ih]

/-- C8: `storeFloods` with an empty record list deletes the partition's
`cache_metadata` row (and all its stored records), so `isCacheValid` for
that partition is false at every later time. -/
theorem storeFloods_empty_invalidates_partition (db : DBState) (timeRange : String)
    (now : Int) (db2 : DBState)
    (h : storeFloods [] timeRange now db = Except.ok db2) :
    (∀ t, isCacheValid timeRange t db2 = false) ∧
    db2.floods.filter (fun f => f.time_range == timeRange) = [] ∧
    db2.cache_metadata.filter (fun kv => kv.1 == timeRange) = [] := by
  simp only [storeFloods, List.length_nil, gt_iff_lt, lt_irrefl, if_false] at h
  rw [Except.ok.injEq] at h
  subst h
  refine ⟨?_, ?_, ?_⟩
  · intro t
    simp only [isCacheValid]
    exact any_filter_bne_false db.cache_metadata timeRange _
  · exact filter_bne_beq_nil (fun f => f.time_range) timeRange db.floods
  · exact filter_bne_beq_nil (fun kv => kv.1) timeRange db.cache_metadata

/-- C8 witness: emptying a partition that had a fresh metadata row makes
the very next freshness check fail. -/
theorem storeFloods_empty_invalidates_partition_witness :
    isCacheValid "hour" 51 ⟨[], []⟩ = false :=
  (storeFloods_empty_invalidates_partition
    ⟨[⟨"z", 1, 2, 3, "major", "a", "s", "hour"⟩], [("hour", 50)]⟩
    "hour" 50 ⟨[], []⟩ (by decide)).1 51

/-- Inserted rows all carry the partition key, so the partition read
keeps every one of them. -/
theorem filter_settr_eq_self (records : List Flood) (tr : String) :
    (records.map (fun f => { f with time_range := tr })).filter
      (fun f => f.time_range == tr) =
      records.map (fun f => { f with time_range := tr }) := by
  induction records with
  | nil => rfl
  | cons r rs ih => simp [List.filter_cons, ih]

/-- The SELECT projection does not read `time_range`, so stamping the
partition key before insert is invisible to the read. -/
theorem map_proj_settr (records : List Flood) (tr : String) :
    (records.map (fun f => { f with time_range := tr })).map projectFloodRow =
      records.map projectFloodRow := by
  rw [List.map_map]
  exact rfl

/-- C6 counterexample: storing a major record then a minor record and
reading the partition back returns the minor record first, violating the
claimed severity-descending (major-first) order of the round trip. -/
theorem roundTrip_severity_order_counterexample :
    storeFloods [c6recMajor, c6recMinor] "day" 100 ⟨[], []⟩ = Except.ok c6db ∧
    getFloods "day" c6db =
      [projectFloodRow c6recMinor, projectFloodRow c6recMajor] ∧
    ¬ claimC6Ordered (getFloods "day" c6db) := by decide

/-- C6 (amended): after a successful `storeFloods records p`, reading the
partition returns exactly the projections of `records` — same multiset,
no duplicates, no omissions — ordered by descending lexicographic string
comparison of severity. -/
theorem storeFloods_getFloods_roundTrip (records : List Flood) (timeRange : String)
    (now : Int) (db db2 : DBState)
    (h : storeFloods records timeRange now db = Except.ok db2) :
    (getFloods timeRange db2).Perm (records.map projectFloodRow) ∧
    (getFloods timeRange db2).Sorted severityDescRow := by
  constructor
  · have heq : (db2.floods.filter (fun f => f.time_range == timeRange)).map projectFloodRow =
        records.map projectFloodRow := by
      simp only [storeFloods] at h
      split at h
      · split at h
        · rw [Except.ok.injEq] at h
          subst h
          simp only [List.filter_append]
          rw [filter_bne_beq_nil (fun f => f.time_range) timeRange db.floods,
            filter_settr_eq_self, List.nil_append, map_proj_settr]
        · simp at h
      · rw [Except.ok.injEq] at h
        subst h
        next hlen =>
        have hrec : records = [] := List.length_eq_zero.mp (by omega)
        subst hrec
        rw [filter_bne_beq_nil (fun f => f.time_range) timeRange db.floods]
    have hperm := List.perm_insertionSort severityDescRow
      ((db2.floods.filter (fun f => f.time_range == timeRange)).map projectFloodRow)
    rw [← heq]
    exact hperm
  · exact List.sorted_insertionSort _ _

/-- C6 witness: the round trip applied to one stored record. -/
theorem storeFloods_getFloods_roundTrip_witness :
    (getFloods "hour" ⟨[c6wRec], [("hour", 9)]⟩).Perm ([c6wRec].map projectFloodRow) ∧
    (getFloods "hour" ⟨[c6wRec], [("hour", 9)]⟩).Sorted severityDescRow :=
  storeFloods_getFloods_roundTrip [c6wRec] "hour" 9 ⟨[], []⟩ ⟨[c6wRec], [("hour", 9)]⟩
    (by decide)

/-- C9 counterexample: with an empty snapshot the first handler call
refreshes, stores zero records and thereby deletes the partition
metadata, so a second call 1 ms later — well inside the 5-minute
freshness window — refreshes again: two upstream-touching refreshes. -/
theorem ensureFresh_double_refresh_on_empty_derivation :
    floodsHandlerRefresh [] "hour" 0 zeroRand ⟨[], []⟩ = (true, Except.ok ⟨[], []⟩) ∧
    floodsHandlerRefresh [] "hour" 1 zeroRand ⟨[], []⟩ = (true, Except.ok ⟨[], []⟩) := by
  decide

/-- C9 (amended): when the first call performs a refresh whose derived
record set is non-empty and commits at time `t1`, a second call at any
`t2` with `t2 − t1 < 5` minutes performs no refresh. -/
theorem ensureFresh_single_refresh_after_nonempty (snapshot : List RefPoint)
    (timeRange : String) (t1 t2 : Int) (rand1 rand2 : Nat → Int) (db db1 : DBState)
    (h1 : floodsHandlerRefresh snapshot timeRange t1 rand1 db = (true, Except.ok db1))
    (hne : deriveFloods snapshot timeRange t1 rand1 ≠ [])
    (hwin : t2 - t1 < 300000) :
    (floodsHandlerRefresh snapshot timeRange t2 rand2 db1).1 = false := by
  simp only [floodsHandlerRefresh, fetchAndStoreFloods] at h1
  split at h1
  · simp at h1
  · rw [Prod.mk.injEq] at h1
    obtain ⟨-, h1⟩ := h1
    simp only [storeFloods] at h1
    split at h1
    · split at h1
      · rw [Except.ok.injEq] at h1
        subst h1
        have hvalid : isCacheValid timeRange t2
            ⟨db.floods.filter (fun f => f.time_range != timeRange) ++
              (deriveFloods snapshot timeRange t1 rand1).map
                (fun f => { f with time_range := timeRange }),
             upsertCacheMetadata timeRange t1 db.cache_metadata⟩ = true := by
          simp only [isCacheValid]
          exact upsert_any_fresh timeRange t1 (t2 - 300000) (by omega) db.cache_metadata
        simp [floodsHandlerRefresh, hvalid]
      · simp at h1
    · next hlen =>
      exact absurd (List.length_eq_zero.mp (by omega)) hne

/-- C9 witness: a non-empty refresh at time 0 followed by a call at time
1 that performs no refresh. -/
theorem ensureFresh_single_refresh_after_nonempty_witness :
    (floodsHandlerRefresh [c9point] "hour" 1 zeroRand c9db1).1 = false :=
  ensureFresh_single_refresh_after_nonempty [c9point] "hour" 0 1 zeroRand zeroRand
    ⟨[], []⟩ c9db1 (by decide) (by decide) (by decide)

/-- Filtering the derived records by a property determined by the source
point filters the selected points. -/
theorem length_filter_derive (pts : List RefPoint) (tr : String) (now : Int)
    (rand : Nat → Int) (p : Flood → Bool) (q : RefPoint → Bool)
    (hpq : ∀ i a, p (floodRecordOfPoint tr now (rand i) a) = q a) :
    ((deriveFloods pts tr now rand).filter p).length =
      ((selectFloodingPoints pts).filter q).length :=
  length_filter_enumFrom_map (fun i a => floodRecordOfPoint tr now (rand i) a) p q hpq
    (selectFloodingPoints pts) 0

/-- The flooding filter is idempotent. -/
theorem filter_active_self (pts : List RefPoint) :
    (pts.filter (fun point => point.is_flooding)).filter
        (fun point => point.is_flooding) =
      pts.filter (fun point => point.is_flooding) := by
  induction pts with
  | nil => rfl
  | cons a as ih => by_cases h : a.is_flooding <;> simp [List.filter_cons, h, ih]

/-- Backfill points are marked not-flooding, so none passes the flooding
filter. -/
theorem filter_active_marked (l : List RefPoint) :
    (l.map (fun point => { point with is_flooding := false })).filter
      (fun point => point.is_flooding) = [] := by
  induction l with
  | nil => rfl
  | cons a as ih => simp [List.filter_cons, ih]

/-- No selected flooding point passes the not-flooding filter. -/
theorem filter_inactive_filtered (pts : List RefPoint) :
    (pts.filter (fun point => point.is_flooding)).filter
      (fun point => !point.is_flooding) = [] := by
  induction pts with
  | nil => rfl
  | cons a as ih => by_cases h : a.is_flooding <;> simp [List.filter_cons, h, ih]

/-- Every marked backfill point passes the not-flooding filter. -/
theorem filter_inactive_marked (l : List RefPoint) :
    (l.map (fun point => { point with is_flooding := false })).filter
        (fun point => !point.is_flooding) =
      l.map (fun point => { point with is_flooding := false }) := by
  induction l with
  | nil => rfl
  | cons a as ih => simp [List.filter_cons, ih]

/-- C7: the derivation never emits more than 50 records, and in the
scenario of 3 currently-flooding points and 60 backfill-eligible at-risk
points it emits exactly 3 major and 47 minor records, 50 total. -/
theorem derive_backfill_and_cap (pts : List RefPoint) (timeRange : String)
    (now : Int) (rand : Nat → Int) :
    (deriveFloods pts timeRange now rand).length ≤ 50 ∧
    ((pts.filter (fun point => point.is_flooding)).length = 3 →
      (pts.filter backfillEligible).length = 60 →
      ((deriveFloods pts timeRange now rand).filter
          (fun f => f.severity == "major")).length = 3 ∧
      ((deriveFloods pts timeRange now rand).filter
          (fun f => f.severity == "minor")).length = 47 ∧
      (deriveFloods pts timeRange now rand).length = 50) := by
  have hdlen : (deriveFloods pts timeRange now rand).length =
      (selectFloodingPoints pts).length := by
    simp only [deriveFloods, List.length_map, List.enum_length]
  constructor
  · rw [hdlen]
    simp only [selectFloodingPoints]
    rw [List.length_take]
    exact min_le_left _ _
  · intro h3 h60
    have hsel : selectFloodingPoints pts =
        pts.filter (fun point => point.is_flooding) ++
          ((pts.filter backfillEligible).take 47).map
            (fun point => { point with is_flooding := false }) := by
      simp only [selectFloodingPoints, h3]
      rw [if_pos (by omega : (3 : Nat) < 10),
        show (50 : Nat) - 3 = 47 from rfl, show min 50 47 = 47 from rfl]
      exact List.take_of_length_le (by
        rw [List.length_append, List.length_map, List.length_take, h3, h60]
        omega)
    refine ⟨?_, ?_, ?_⟩
    · rw [length_filter_derive pts timeRange now rand _
          (fun point => point.is_flooding)
          (by intro i a; by_cases hb : a.is_flooding <;> simp [floodRecordOfPoint, hb]),
        hsel, List.filter_append, List.length_append, filter_active_self,
        filter_active_marked]
      simp [h3]
    · rw [length_filter_derive pts timeRange now rand _
          (fun point => !point.is_flooding)
          (by intro i a; by_cases hb : a.is_flooding <;> simp [floodRecordOfPoint, hb]),
        hsel, List.filter_append, List.length_append, filter_inactive_filtered,
        filter_inactive_marked]
      simp [List.length_map, List.length_take, h60]
    · rw [hdlen, hsel]
      simp [List.length_append, List.length_map, List.length_take, h3, h60]

/-- C7 witness: the scenario instantiated with 3 concrete active points
and 60 concrete eligible at-risk points. -/
theorem derive_backfill_and_cap_witness :
    ((deriveFloods c7points "hour" 0 zeroRand).filter
        (fun f => f.severity == "major")).length = 3 ∧
    ((deriveFloods c7points "hour" 0 zeroRand).filter
        (fun f => f.severity == "minor")).length = 47 ∧
    (deriveFloods c7points "hour" 0 zeroRand).length = 50 :=
  (derive_backfill_and_cap c7points "hour" 0 zeroRand).2 (by decide) (by decide)
